import Mathlib

/-!
Verification of the time-series splitting and format-conversion utilities of
`toolkit/util.py` (STOCK-PRICE-VOLATILITY repository).

The Python code is shallowly embedded:

* a dataframe (or one group of a grouped dataframe) is a `List α` of rows,
  kept in the dataframe's row order;
* Python `int`/`float` arguments become `ℤ`/`ℚ`; `Optional` arguments become
  `Option _`; Python truthiness of an optional number (`None` and `0` are
  falsy) is `oTruthy`/`qTruthy`;
* `df.iloc[a:b]` slicing (with Python's negative-index and clipping rules)
  is `pySlice`; `int(x)` truncation toward zero is `pyInt`;
* a `raise ValueError(msg)` is `Except.error msg`, with the exact message
  strings of the source.
-/

/-- Python truthiness of an optional integer: `None` and `0` are falsy. -/
def oTruthy (x : Option ℤ) : Bool :=
  match x with
  | none => false
  | some n => n != 0

/-- Python truthiness of an optional float: `None` and `0.0` are falsy. -/
def qTruthy (x : Option ℚ) : Bool :=
  match x with
  | none => false
  | some q => q != 0

/-- Python truthiness of an optional string (a group name): `None` and the
empty string are falsy. -/
def sTruthy (x : Option String) : Bool :=
  match x with
  | none => false
  | some s => s != ""

/-- Python `int(q)` on a float: truncation toward zero. -/
def pyInt (q : ℚ) : ℤ := if 0 ≤ q then ⌊q⌋ else ⌈q⌉

/-- Normalization of one Python slice bound against a sequence of length `l`:
negative indices count from the end, out-of-range bounds clip. -/
def pyNorm (l : ℕ) (i : ℤ) : ℕ :=
  if i < 0 then ((l : ℤ) + i).toNat else min i.toNat l

/-- Python slicing `xs[a:b]` (pandas `.iloc[a:b]`); `none` bounds mean the
start resp. the end of the sequence. -/
def pySlice (xs : List α) (a b : Option ℤ) : List α :=
  let l := xs.length
  let a' := match a with | none => 0 | some i => pyNorm l i
  let b' := match b with | none => l | some i => pyNorm l i
  (xs.drop a').take (b' - a')

/-- Whether an `Except` computation succeeded. -/
def exceptOk (e : Except String α) : Bool :=
  match e with
  | .ok _ => true
  | .error _ => false

instance {ε α : Type} [DecidableEq ε] [DecidableEq α] : DecidableEq (Except ε α) := fun a b =>
  match a, b with
  | .ok x, .ok y => if h : x = y then .isTrue (by rw [h]) else .isFalse (by simp [h])
  | .error x, .error y => if h : x = y then .isTrue (by rw [h]) else .isFalse (by simp [h])
  | .ok _, .error _ => .isFalse (by simp)
  | .error _, .ok _ => .isFalse (by simp)

/-- The empty-selection error message of `_split_group_by_index`
(`toolkit/util.py:283-286`); the group id is appended when `name` is truthy. -/
def emptySelectionMsg (name : Option String) : String :=
  let msg := "Selection would result in an empty time series, please check start_index and time series length"
  if sTruthy name then msg ++ " (id = " ++ name.getD "" ++ ")" else msg

/-- `_split_group_by_index(group_df, name, start_index, end_index)`
(`toolkit/util.py:276-296`): raises when `start_index` is truthy and at least
the group length, otherwise Python-slices; a falsy `start_index` (or
`end_index`) makes the corresponding bound default to the group's start
(resp. end). -/
def split_group_by_index (xs : List α) (name : Option String)
    (start_index end_index : Option ℤ) : Except String (List α) :=
  if oTruthy start_index ∧ (xs.length : ℤ) ≤ start_index.getD 0 then
    .error (emptySelectionMsg name)
  else if ¬ oTruthy start_index then .ok (pySlice xs none end_index)
  else if ¬ oTruthy end_index then .ok (pySlice xs start_index none)
  else .ok (pySlice xs start_index end_index)

/-- `select_by_index` (`toolkit/util.py:57-92`) in its ungrouped form
(`id_columns=None`); the grouped form applies `split_group_by_index` with the
group key as `name` to every group. -/
def select_by_index (xs : List α) (start_index end_index : Option ℤ) :
    Except String (List α) :=
  if ¬ oTruthy start_index ∧ ¬ oTruthy end_index then
    .error "At least one of start_index or end_index must be specified."
  else split_group_by_index xs none start_index end_index

/-- `select_by_timestamp` (`toolkit/util.py:21-54`); rows are represented by
their timestamps (modelled as integers, the spec's "order-comparable
numeric" case). -/
def select_by_timestamp (xs : List ℤ) (start_timestamp end_timestamp : Option ℤ) :
    Except String (List ℤ) :=
  if ¬ oTruthy start_timestamp ∧ ¬ oTruthy end_timestamp then
    .error "At least one of start_timestamp or end_timestamp must be specified."
  else if ¬ oTruthy start_timestamp then
    .ok (xs.filter (fun t => t < end_timestamp.getD 0))
  else if ¬ oTruthy end_timestamp then
    .ok (xs.filter (fun t => start_timestamp.getD 0 ≤ t))
  else
    .ok (xs.filter (fun t => start_timestamp.getD 0 ≤ t ∧ t < end_timestamp.getD 0))

/-- The negative-start error message of `_split_group_by_fraction`
(`toolkit/util.py:311-316`). -/
def negStartMsg (name : Option String) : String :=
  if sTruthy name then
    "Computed starting_index for id=" ++ name.getD "" ++
      " is negative, please check individual time series lengths, start_fraction, and start_offset."
  else
    "Computed starting_index is negative, please check time series length, start_fraction, and start_offset."

/-- `_split_group_by_fraction` (`toolkit/util.py:299-325`):
`start_index = int(length*start_fraction) - start_offset` (error when
negative), `end_index = int(length*end_fraction)`, then index split. -/
def split_group_by_fraction (xs : List α) (name : Option String)
    (start_fraction : Option ℚ) (start_offset : ℤ) (end_fraction : Option ℚ) :
    Except String (List α) :=
  let length := xs.length
  let end_index := end_fraction.map (fun ef => pyInt ((length : ℚ) * ef))
  match start_fraction with
  | some sf =>
      let start_index := pyInt ((length : ℚ) * sf) - start_offset
      if start_index < 0 then .error (negStartMsg name)
      else split_group_by_index xs name (some start_index) end_index
  | none => split_group_by_index xs name none end_index

/-- `select_by_relative_fraction` (`toolkit/util.py:95-153`) in its ungrouped
form. -/
def select_by_relative_fraction (xs : List α) (start_fraction : Option ℚ)
    (start_offset : ℤ) (end_fraction : Option ℚ) : Except String (List α) :=
  if ¬ qTruthy start_fraction ∧ ¬ qTruthy end_fraction then
    .error "At least one of start_fraction or end_fraction must be specified."
  else if start_offset < 0 then
    .error "The value of start_offset should ne non-negative."
  else split_group_by_fraction xs none start_fraction start_offset end_fraction

/-- `_split_group_by_fixed_fraction` (`toolkit/util.py:328-350`); `location`
is compared against the string values of the `FractionLocation` enum. -/
def split_group_by_fixed_fraction (xs : List α) (name : Option String)
    (fraction : ℚ) (location : String) (minimum_size : ℤ) :
    Except String (List α) :=
  let l := xs.length
  let fraction_size := pyInt (fraction * ((l : ℚ) - (minimum_size : ℚ))) + minimum_size
  if location = "first" then
    split_group_by_index xs name (some 0) (some fraction_size)
  else if location = "last" then
    split_group_by_index xs name (some ((l : ℤ) - fraction_size)) (some (l : ℤ))
  else
    .error "`location` should be either `first` or `last`"

/-- `select_by_fixed_fraction` (`toolkit/util.py:156-201`) in its ungrouped
form. -/
def select_by_fixed_fraction (xs : List α) (fraction : ℚ) (location : String)
    (minimum_size : ℤ) : Except String (List α) :=
  if fraction < 0 ∨ 1 < fraction then
    .error "The value of fraction should be between 0 and 1."
  else split_group_by_fixed_fraction xs none fraction location minimum_size

/-- `_split_group_train_test` (`toolkit/util.py:238-263`): three calls to
`split_group_by_index`, evaluated in source order (train, valid, test). -/
def split_group_train_test (xs : List α) (name : Option String)
    (train test : ℚ) (valid_test_offset : ℤ) :
    Except String (List α × List α × List α) := do
  let l := xs.length
  let train_size := pyInt ((l : ℚ) * train)
  let test_size := pyInt ((l : ℚ) * test)
  let valid_size := (l : ℤ) - train_size - test_size
  let train_df ← split_group_by_index xs name (some 0) (some train_size)
  let valid_df ← split_group_by_index xs name
    (some (train_size - valid_test_offset)) (some (train_size + valid_size))
  let test_df ← split_group_by_index xs name
    (some (train_size + valid_size - valid_test_offset)) none
  return (train_df, valid_df, test_df)

/-- `train_test_split` (`toolkit/util.py:204-235`) in its ungrouped form
(the `.copy()` of each part is the identity on our value-level rows). -/
def train_test_split (xs : List α) (train test : ℚ) (valid_test_offset : ℤ) :
    Except String (List α × List α × List α) :=
  split_group_train_test xs none train test valid_test_offset

/-- Resolved parameters for one split, as produced by `get_split_params` in
its explicit three-way mode: either fraction-based (to be consumed by
`select_by_relative_fraction`) or index-based (for `select_by_index`). -/
inductive SplitParams where
  | fraction (start_fraction end_fraction : ℚ) (start_offset : ℤ)
  | index (start_index end_index : ℚ)
deriving DecidableEq

/-- Whether resolved split parameters are fraction-based (i.e. the resolver
chose `select_by_relative_fraction` as the split function). -/
def SplitParams.isFractionMode : SplitParams → Bool
  | .fraction _ _ _ => true
  | .index _ _ => false

/-- An explicit three-way split configuration: a mapping with keys
`train`/`valid`/`test`, each a pair of boundaries. -/
structure ThreeWaySplitConfig where
  train : ℚ × ℚ
  valid : ℚ × ℚ
  test : ℚ × ℚ
deriving DecidableEq

/-- A split configuration (`toolkit/util.py:485`): the explicit mode has the
`valid` key, the implicit mode carries scalar `train`/`test` values. -/
inductive SplitConfig where
  | threeWay (c : ThreeWaySplitConfig)
  | twoWay (train test : ℚ)
deriving DecidableEq

/-- The result of `get_split_params`: per-split parameters plus the chosen
split function (encoded in `SplitParams` for the explicit mode; the implicit
mode selects `train_test_split`). -/
inductive GetSplitResult where
  | explicitMode (train test valid : SplitParams)
  | implicitMode (train test : ℚ) (valid_test_offset : ℤ)
deriving DecidableEq

/-- The effective context offset for a non-train split: `context_length` when
it is truthy, else 0 (`toolkit/util.py:515,521`). -/
def ctxEff (context_length : Option ℤ) : ℤ :=
  if oTruthy context_length then context_length.getD 0 else 0

/-- The loop body of `get_split_params`'s explicit mode
(`toolkit/util.py:510-525`), resolving one split from its boundary pair. -/
def resolveExplicitSplit (b : ℚ × ℚ) (isTrain : Bool) (context_length : Option ℤ) :
    SplitParams :=
  let off := if isTrain then 0 else ctxEff context_length
  if (b.1 < 1 ∧ b.1 ≠ 0) ∨ b.2 < 1 then
    .fraction b.1 b.2 off
  else
    .index (b.1 - (off : ℚ)) b.2

/-- `get_split_params` (`toolkit/util.py:484-535`); the explicit-mode loop
over `["train", "test", "valid"]` is unrolled. -/
def get_split_params (split_config : SplitConfig) (context_length : Option ℤ) :
    GetSplitResult :=
  match split_config with
  | .threeWay c =>
      .explicitMode
        (resolveExplicitSplit c.train true context_length)
        (resolveExplicitSplit c.test false context_length)
        (resolveExplicitSplit c.valid false context_length)
  | .twoWay train test =>
      .implicitMode train test (ctxEff context_length)

/-- `join_list_without_repeat` (`toolkit/util.py:573-588`): `None` (= `none`)
is returned for an empty argument tuple; otherwise each later list
contributes the items not already in the accumulated result (`final_set` is
recomputed from `final` after every iteration, so membership is tested
against the accumulation as of the start of the current list). -/
def join_list_without_repeat [DecidableEq α] (lists : List (List α)) :
    Option (List α) :=
  lists.foldl
    (fun final alist =>
      match final with
      | none => some alist
      | some f => some (f ++ alist.filter (fun item => decide (item ∉ f))))
    none

/-- The de-duplicating concatenation described by the spec: the first list
verbatim, then, per subsequent list, its elements not already present in the
result accumulated from the preceding lists. -/
def joinWithoutRepeatSpec [DecidableEq α] (first : List α) (rest : List (List α)) :
    List α :=
  rest.foldl (fun acc alist => acc ++ alist.filter (fun item => decide (item ∉ acc))) first

/-!
Embedding of the legacy `.tsf` reader `convert_tsf_to_dataframe`
(`toolkit/util.py:353-481`). The Python string operations used by the parser
(`str.strip`, `str.startswith`, `str.split` on the one-character separators
`" "`, `":"`, `","`, `str.lower`) are modelled by structurally recursive
functions over the character list of a `String`, so that they evaluate
inside the kernel.
-/

/-- Splitting a character list on a separator character; like Python
`str.split(sep)`, adjacent separators yield empty fields and the result is
never empty. -/
def splitOnChar (c : Char) : List Char → List (List Char)
  | [] => [[]]
  | x :: rest =>
      let r := splitOnChar c rest
      if x = c then [] :: r
      else
        match r with
        | h :: t => (x :: h) :: t
        | [] => [[x]]

/-- Python `s.split(sep)` for a one-character separator. -/
def pySplit (s : String) (c : Char) : List String :=
  (splitOnChar c s.data).map (fun l => ⟨l⟩)

/-- Whether the first list is an initial segment of the second. -/
def startsWithChars : List Char → List Char → Bool
  | [], _ => true
  | _ :: _, [] => false
  | p :: ps, c :: cs => p == c && startsWithChars ps cs

/-- Python `s.startswith(pat)`. -/
def pyStartsWith (s pat : String) : Bool := startsWithChars pat.data s.data

/-- Python `s.strip()` (whitespace from both ends). -/
def pyStrip (s : String) : String :=
  ⟨((s.data.dropWhile Char.isWhitespace).reverse.dropWhile Char.isWhitespace).reverse⟩

/-- ASCII lower-casing of one character. -/
def asciiLower (c : Char) : Char :=
  if 65 ≤ c.toNat ∧ c.toNat ≤ 90 then Char.ofNat (c.toNat + 32) else c

/-- Python `s.lower()` (ASCII fragment, as used by `strtobool`). -/
def pyLower (s : String) : String := ⟨s.data.map asciiLower⟩

/-- Value of digit characters. -/
def digitsToNat (cs : List Char) : ℕ :=
  cs.foldl (fun n c => 10 * n + (c.toNat - 48)) 0

/-- A non-empty digit string with an optional leading sign. -/
def isSignedDigits (cs : List Char) : Bool :=
  let ds := match cs with
    | '+' :: r => r
    | '-' :: r => r
    | r => r
  !ds.isEmpty && ds.all Char.isDigit

/-- Python `int(s)`: `none` models the `ValueError` of an unparsable literal
(whitespace/underscore leniency is not modelled; no verified property depends on it). -/
def pyParseInt (s : String) : Option ℤ :=
  if isSignedDigits s.data then
    match s.data with
    | '-' :: r => some (-(digitsToNat r : ℤ))
    | '+' :: r => some ((digitsToNat r : ℤ))
    | r => some ((digitsToNat r : ℤ))
  else none

/-- The exponent tail of a float literal: `e`/`E` followed by signed digits. -/
def isExpTail (cs : List Char) : Bool :=
  match cs with
  | 'e' :: r => isSignedDigits r
  | 'E' :: r => isSignedDigits r
  | _ => false

/-- Whether Python `float(s)` succeeds: sign, digits with at most one point
(at least one digit), optional exponent. (`inf`/`nan` spellings and
whitespace leniency are not modelled; no verified property depends on them.) -/
def isFloatToken (s : String) : Bool :=
  let cs := match s.data with
    | '+' :: r => r
    | '-' :: r => r
    | r => r
  let ip := cs.span Char.isDigit
  match ip.2 with
  | '.' :: r =>
      let fp := r.span Char.isDigit
      (!ip.1.isEmpty || !fp.1.isEmpty) && (fp.2.isEmpty || isExpTail fp.2)
  | rest => !ip.1.isEmpty && (rest.isEmpty || isExpTail rest)

/-- `distutils.util.strtobool`; `none` models its `ValueError`. -/
def strtobool (s : String) : Option Bool :=
  let v := pyLower s
  if v = "y" ∨ v = "yes" ∨ v = "t" ∨ v = "true" ∨ v = "on" ∨ v = "1" then some true
  else if v = "n" ∨ v = "no" ∨ v = "f" ∨ v = "false" ∨ v = "off" ∨ v = "0" then some false
  else none

/-- Whether `datetime.strptime(s, "%Y-%m-%d %H-%M-%S")` succeeds: modelled as
the shape check `dddd-dd-dd dd-dd-dd` (field-range validation is not
modelled; no verified property involves date attributes). -/
def isStrptimeDate (s : String) : Bool :=
  match s.data with
  | [y1, y2, y3, y4, '-', m1, m2, '-', d1, d2, ' ', h1, h2, '-', n1, n2, '-', s1, s2] =>
      [y1, y2, y3, y4, m1, m2, d1, d2, h1, h2, n1, n2, s1, s2].all Char.isDigit
  | _ => false

/-- One parsed series value: a `?` replaced by the missing-value sentinel, or
a numeric token (the float's text; its numeric value is never inspected). -/
inductive TsfVal where
  | missing
  | num (tok : String)
deriving DecidableEq, BEq

/-- One parsed attribute value (`numeric`/`string`/`date`). -/
inductive TsfAttr where
  | intVal (n : ℤ)
  | strVal (s : String)
  | dateVal (s : String)
deriving DecidableEq

/-- The parser state of `convert_tsf_to_dataframe`: its local variables.
`all_data` keeps the attribute records row-major (the Python dict keyed by
column name holds the same values column-major). -/
structure TsfState where
  col_names : List String := []
  col_types : List String := []
  frequency : Option String := none
  forecast_horizon : Option ℤ := none
  contain_missing_values : Option Bool := none
  contain_equal_length : Option Bool := none
  found_data_tag : Bool := false
  found_data_section : Bool := false
  started_reading_data_section : Bool := false
  line_count : ℕ := 0
  all_series : List (List TsfVal) := []
  all_data : List (List TsfAttr) := []
deriving DecidableEq

/-- Parsing of one data-row value token (`toolkit/util.py:432-436`):
`?` becomes the missing sentinel, anything else goes through `float`. -/
def tsfParseVal (v : String) : Except String TsfVal :=
  if v = "?" then .ok .missing
  else if isFloatToken v then .ok (.num v)
  else .error ("could not convert string to float: " ++ v)

/-- Conversion of one attribute field per its declared type
(`toolkit/util.py:445-461`); the unreachable `att_val is None` check of the
source ("Invalid attribute value.") is omitted, every branch either sets a
value or raises. -/
def tsfParseAttr (ty v : String) : Except String TsfAttr :=
  if ty = "numeric" then
    match pyParseInt v with
    | some n => .ok (.intVal n)
    | none => .error ("invalid literal for int() with base 10: " ++ v)
  else if ty = "string" then .ok (.strVal v)
  else if ty = "date" then
    if isStrptimeDate v then .ok (.dateVal v)
    else .error ("time data " ++ v ++ " does not match format %Y-%m-%d %H-%M-%S")
  else .error "Invalid attribute type."

/-- The metadata branch of the reader's loop for a non-`@data` `@` line
(`toolkit/util.py:377-396`). -/
def tsfMetaLine (st : TsfState) (line : String) : Except String TsfState :=
  let line_content := pySplit line ' '
  if pyStartsWith line "@attribute" then
    if line_content.length ≠ 3 then .error "Invalid meta-data specification."
    else .ok { st with
      col_names := st.col_names ++ [line_content.getD 1 ""],
      col_types := st.col_types ++ [line_content.getD 2 ""] }
  else if line_content.length ≠ 2 then .error "Invalid meta-data specification."
  else
    let v := line_content.getD 1 ""
    if pyStartsWith line "@frequency" then .ok { st with frequency := some v }
    else if pyStartsWith line "@horizon" then
      match pyParseInt v with
      | some n => .ok { st with forecast_horizon := some n }
      | none => .error ("invalid literal for int() with base 10: " ++ v)
    else if pyStartsWith line "@missing" then
      match strtobool v with
      | some b => .ok { st with contain_missing_values := some b }
      | none => .error ("invalid truth value " ++ v)
    else if pyStartsWith line "@equallength" then
      match strtobool v with
      | some b => .ok { st with contain_equal_length := some b }
      | none => .error ("invalid truth value " ++ v)
    else .ok st

/-- The data-row branch of the reader's loop (`toolkit/util.py:403-461`). -/
def tsfDataLine (st : TsfState) (line : String) : Except String TsfState := do
  if st.col_names.length = 0 then
    .error "Missing attribute section. Attribute section must come before data."
  else if ¬ st.found_data_tag then
    .error "Missing @data tag."
  else
    let st := if ¬ st.started_reading_data_section then
        { st with started_reading_data_section := true, found_data_section := true }
      else st
    let full_info := pySplit line ':'
    if full_info.length ≠ st.col_names.length + 1 then
      .error "Missing attributes/values in series."
    else
      let series := pySplit (full_info.getD (full_info.length - 1) "") ','
      if series.length = 0 then
        .error "A given series should contains a set of comma separated numeric values. At least one numeric value should be there in a series. Missing values should be indicated with ? symbol"
      else do
        let numeric_series ← series.mapM tsfParseVal
        if numeric_series.count TsfVal.missing = numeric_series.length then
          .error "All series values are missing. A given series should contains a set of comma separated numeric values. At least one numeric value should be there in a series."
        else do
          let attrs ← (List.range st.col_names.length).mapM
            (fun i => tsfParseAttr (st.col_types.getD i "") (full_info.getD i ""))
          return { st with
            all_series := st.all_series ++ [numeric_series],
            all_data := st.all_data ++ [attrs] }

/-- One iteration of the reader's line loop (`toolkit/util.py:371-463`):
blank lines are skipped entirely, `@` lines go to the metadata or data-tag
branch, `#` lines are comments, anything else is a data row; every
non-blank line bumps `line_count`. -/
def tsfProcessLine (st : TsfState) (rawLine : String) : Except String TsfState := do
  let line := pyStrip rawLine
  if line = "" then .ok st
  else do
    let st' ←
      if pyStartsWith line "@" then
        if ¬ pyStartsWith line "@data" then tsfMetaLine st line
        else if st.col_names.length = 0 then
          .error "Missing attribute section. Attribute section must come before data."
        else .ok { st with found_data_tag := true }
      else if ¬ pyStartsWith line "#" then tsfDataLine st line
      else .ok st
    return { st' with line_count := st'.line_count + 1 }

/-- The result record of `convert_tsf_to_dataframe`: the loaded table (one
row per series) and the scalar metadata. -/
structure TsfResult where
  col_names : List String
  attr_rows : List (List TsfAttr)
  series : List (List TsfVal)
  frequency : Option String
  forecast_horizon : Option ℤ
  contain_missing_values : Option Bool
  contain_equal_length : Option Bool
deriving DecidableEq

/-- `convert_tsf_to_dataframe` (`toolkit/util.py:353-481`) over the stripped
lines of the file. -/
def convert_tsf_to_dataframe (lines : List String) : Except String TsfResult := do
  let st ← lines.foldlM tsfProcessLine {}
  if st.line_count = 0 then .error "Empty file."
  else if st.col_names.length = 0 then .error "Missing attribute section."
  else if ¬ st.found_data_section then .error "Missing series information under data section."
  else
    return {
      col_names := st.col_names
      attr_rows := st.all_data
      series := st.all_series
      frequency := st.frequency
      forecast_horizon := st.forecast_horizon
      contain_missing_values := st.contain_missing_values
      contain_equal_length := st.contain_equal_length }

/-! Helper lemmas about the Python slice model. -/

theorem pySlice_none_none (xs : List α) : pySlice xs none none = xs := by
  simp [pySlice]

theorem pySlice_none_some (xs : List α) (e : ℤ) (he : 0 ≤ e) :
    pySlice xs none (some e) = xs.take e.toNat := by
  simp only [pySlice, pyNorm, if_neg (by omega : ¬ e < 0), List.drop_zero, Nat.sub_zero]
  rw [List.take_eq_take]
  omega

theorem pySlice_some_none (xs : List α) (s : ℤ) (hs : 0 ≤ s) :
    pySlice xs (some s) none = xs.drop s.toNat := by
  simp only [pySlice, pyNorm, if_neg (by omega : ¬ s < 0)]
  rcases le_or_lt s.toNat xs.length with h | h
  · rw [min_eq_left h]
    exact List.take_of_length_le (by simp)
  · rw [min_eq_right (le_of_lt h), List.drop_eq_nil_of_le (le_refl _),
      List.drop_eq_nil_of_le (le_of_lt h), List.take_nil]

theorem pySlice_some_none_neg (xs : List α) (s : ℤ) (hs : s < 0) :
    pySlice xs (some s) none = xs.drop ((xs.length : ℤ) + s).toNat := by
  simp only [pySlice, pyNorm, if_pos hs]
  exact List.take_of_length_le (by simp)

theorem pySlice_some_some (xs : List α) (a b : ℤ) (ha : 0 ≤ a) (hb : 0 ≤ b) :
    pySlice xs (some a) (some b) = (xs.drop a.toNat).take (b.toNat - a.toNat) := by
  simp only [pySlice, pyNorm, if_neg (by omega : ¬ a < 0), if_neg (by omega : ¬ b < 0)]
  rcases le_or_lt a.toNat xs.length with h | h
  · rw [min_eq_left h, List.take_eq_take]
    simp only [List.length_drop]
    omega
  · rw [min_eq_right (le_of_lt h), List.drop_eq_nil_of_le (le_refl _),
      List.drop_eq_nil_of_le (le_of_lt h), List.take_nil, List.take_nil]

theorem pyInt_of_nonneg (q : ℚ) (h : 0 ≤ q) : pyInt q = ⌊q⌋ := if_pos h

theorem pyInt_nonneg (q : ℚ) (h : 0 ≤ q) : 0 ≤ pyInt q := by
  rw [pyInt_of_nonneg q h]
  exact Int.floor_nonneg.mpr h

theorem pyInt_natMul_le (l : ℕ) (f : ℚ) (h0 : 0 ≤ f) (h1 : f ≤ 1) :
    pyInt ((l : ℚ) * f) ≤ (l : ℤ) := by
  rw [pyInt_of_nonneg _ (mul_nonneg (by positivity) h0)]
  calc ⌊(l : ℚ) * f⌋ ≤ ⌊(l : ℚ)⌋ :=
        Int.floor_le_floor (mul_le_of_le_one_right (by positivity) h1)
    _ = (l : ℤ) := Int.floor_natCast l

theorem pyInt_natMul_add_le (l : ℕ) (f g : ℚ) (h0 : 0 ≤ f) (h0' : 0 ≤ g)
    (h1 : f + g ≤ 1) : pyInt ((l : ℚ) * f) + pyInt ((l : ℚ) * g) ≤ (l : ℤ) := by
  rw [pyInt_of_nonneg _ (mul_nonneg (by positivity) h0),
    pyInt_of_nonneg _ (mul_nonneg (by positivity) h0')]
  have hfl : (⌊(l : ℚ) * f⌋ : ℚ) ≤ (l : ℚ) * f := Int.floor_le _
  have hgl : (⌊(l : ℚ) * g⌋ : ℚ) ≤ (l : ℚ) * g := Int.floor_le _
  have : ((⌊(l : ℚ) * f⌋ + ⌊(l : ℚ) * g⌋ : ℤ) : ℚ) ≤ (l : ℚ) := by
    push_cast
    nlinarith
  have h2 : ⌊(l : ℚ) * f⌋ + ⌊(l : ℚ) * g⌋ ≤ ⌊(l : ℚ)⌋ := Int.le_floor.mpr this
  rwa [Int.floor_natCast] at h2

/-! Branch characterizations of `split_group_by_index`. -/

theorem split_group_by_index_error_branch (xs : List α) (name : Option String)
    (si : ℤ) (ei : Option ℤ) (h1 : si ≠ 0) (h2 : (xs.length : ℤ) ≤ si) :
    split_group_by_index xs name (some si) ei = .error (emptySelectionMsg name) := by
  unfold split_group_by_index
  rw [if_pos ⟨by simpa [oTruthy] using h1, by simpa using h2⟩]

theorem split_group_by_index_falsy_start (xs : List α) (name : Option String)
    (si ei : Option ℤ) (h : oTruthy si = false) :
    split_group_by_index xs name si ei = .ok (pySlice xs none ei) := by
  unfold split_group_by_index
  rw [if_neg (by simp [h]), if_pos (by simp [h])]

theorem split_group_by_index_falsy_end (xs : List α) (name : Option String)
    (si : ℤ) (ei : Option ℤ) (h1 : si ≠ 0) (h2 : si < (xs.length : ℤ))
    (h3 : oTruthy ei = false) :
    split_group_by_index xs name (some si) ei = .ok (pySlice xs (some si) none) := by
  unfold split_group_by_index
  rw [if_neg (by simp [oTruthy, h1]; omega), if_neg (by simp [oTruthy, h1]),
    if_pos (by simp [h3])]

theorem split_group_by_index_both (xs : List α) (name : Option String)
    (si ei : ℤ) (h1 : si ≠ 0) (h2 : si < (xs.length : ℤ)) (h3 : ei ≠ 0) :
    split_group_by_index xs name (some si) (some ei) =
      .ok (pySlice xs (some si) (some ei)) := by
  unfold split_group_by_index
  rw [if_neg (by simp [oTruthy, h1]; omega), if_neg (by simp [oTruthy, h1]),
    if_neg (by simp [oTruthy, h3])]

theorem split_group_by_index_isOk (xs : List α) (name : Option String)
    (si ei : Option ℤ) (h : ¬ (oTruthy si = true ∧ (xs.length : ℤ) ≤ si.getD 0)) :
    exceptOk (split_group_by_index xs name si ei) = true := by
  unfold split_group_by_index
  rw [if_neg h]
  split_ifs <;> rfl

theorem exceptOk_exists {e : Except String β} (h : exceptOk e = true) :
    ∃ v, e = .ok v := by
  cases e with
  | ok v => exact ⟨v, rfl⟩
  | error m => simp [exceptOk] at h

theorem split_group_by_index_error_iff (xs : List α) (name : Option String)
    (si ei : Option ℤ) :
    split_group_by_index xs name si ei = .error (emptySelectionMsg name) ↔
      oTruthy si = true ∧ (xs.length : ℤ) ≤ si.getD 0 := by
  constructor
  · intro h
    by_contra hc
    obtain ⟨v, hv⟩ := exceptOk_exists (split_group_by_index_isOk xs name si ei hc)
    rw [h] at hv
    exact Except.noConfusion hv
  · rintro ⟨h1, h2⟩
    cases si with
    | none => simp [oTruthy] at h1
    | some s =>
        have hs : s ≠ 0 := by simpa [oTruthy] using h1
        exact split_group_by_index_error_branch xs name s ei hs (by simpa using h2)

/-- C10: on every non-empty group, `select_by_fixed_fraction` with
`fraction = 0` and `minimum_size = 0` raises the empty-selection error for
`location = "last"` (the computed start index equals the group length), but
returns an empty result for `location = "first"`: the two locations are not
symmetric at fraction zero. -/
theorem select_by_fixed_fraction_zero_fraction_asymmetry {α : Type} (xs : List α)
    (h : xs ≠ []) :
    select_by_fixed_fraction xs 0 "last" 0 = .error (emptySelectionMsg none) ∧
    select_by_fixed_fraction xs 0 "first" 0 = .ok [] := by
  have hl : xs.length ≠ 0 := fun hh => h (List.length_eq_zero.mp hh)
  have hfs : pyInt ((0 : ℚ) * ((xs.length : ℚ) - ((0 : ℤ) : ℚ))) + (0 : ℤ) = 0 := by
    norm_num [pyInt]
  constructor
  · simp only [select_by_fixed_fraction, split_group_by_fixed_fraction]
    rw [if_neg (by norm_num), if_pos trivial, hfs, sub_zero]
    exact split_group_by_index_error_branch xs none _ _ (by exact_mod_cast hl) le_rfl
  · simp only [select_by_fixed_fraction, split_group_by_fixed_fraction]
    rw [if_neg (by norm_num), if_pos trivial, hfs]
    rw [split_group_by_index_falsy_start xs none _ _ (by decide)]
    rw [pySlice_none_some xs 0 le_rfl]
    simp

/-- C10 witness at the one-row group `[7]`. -/
theorem select_by_fixed_fraction_zero_fraction_asymmetry_witness :
    select_by_fixed_fraction ([7] : List ℤ) 0 "last" 0 = .error (emptySelectionMsg none) ∧
    select_by_fixed_fraction ([7] : List ℤ) 0 "first" 0 = .ok [] :=
  select_by_fixed_fraction_zero_fraction_asymmetry ([7] : List ℤ) (by decide)

/-- C4: the per-group index splitter raises the empty-selection error exactly
when `start_index` is truthy (non-`None`, non-zero) and at least the group
length; with grouping active the message carries the group's identifier;
ungrouped `select_by_index` raises that error under the same condition; and
an `end_index` beyond the group length is never checked — it silently clips
to the full group. -/
theorem split_by_index_empty_selection_iff {α : Type} (xs : List α) (name : String)
    (hname : name ≠ "") (si ei : Option ℤ) :
    (split_group_by_index xs (some name) si ei = .error (emptySelectionMsg (some name)) ↔
      oTruthy si = true ∧ (xs.length : ℤ) ≤ si.getD 0) ∧
    emptySelectionMsg (some name) =
      "Selection would result in an empty time series, please check start_index and time series length"
        ++ " (id = " ++ name ++ ")" ∧
    (select_by_index xs si ei = .error (emptySelectionMsg none) ↔
      oTruthy si = true ∧ (xs.length : ℤ) ≤ si.getD 0) ∧
    (∀ e : ℤ, (xs.length : ℤ) < e → select_by_index xs none (some e) = .ok xs) := by
  refine ⟨split_group_by_index_error_iff xs (some name) si ei, ?_, ?_, ?_⟩
  · simp only [emptySelectionMsg, sTruthy, Option.getD]
    rw [if_pos (by simpa using hname)]
  · unfold select_by_index
    by_cases hb : ¬ oTruthy si = true ∧ ¬ oTruthy ei = true
    · rw [if_pos hb]
      constructor
      · intro hmsg
        exact absurd (Except.error.inj hmsg) (by decide)
      · rintro ⟨h1, _⟩
        exact absurd h1 hb.1
    · rw [if_neg hb]
      exact split_group_by_index_error_iff xs none si ei
  · intro e he
    have he0 : oTruthy (some e) = true := by
      simp only [oTruthy, bne_iff_ne, ne_eq, decide_eq_true_eq]
      omega
    unfold select_by_index
    rw [if_neg (by simp [he0]), split_group_by_index_falsy_start xs none none (some e) rfl,
      pySlice_none_some xs e (by omega)]
    congr 1
    exact List.take_of_length_le (by omega)

/-- C4 witness at the group `[10, 20]` with id "A", `start_index = 5`. -/
theorem split_by_index_empty_selection_iff_witness :
    (split_group_by_index ([10, 20] : List ℤ) (some "A") (some 5) none =
        .error (emptySelectionMsg (some "A")) ↔
      oTruthy (some 5) = true ∧ ((([10, 20] : List ℤ).length : ℤ) ≤ (some (5 : ℤ)).getD 0)) ∧
    emptySelectionMsg (some "A") =
      "Selection would result in an empty time series, please check start_index and time series length"
        ++ " (id = " ++ "A" ++ ")" ∧
    (select_by_index ([10, 20] : List ℤ) (some 5) none = .error (emptySelectionMsg none) ↔
      oTruthy (some 5) = true ∧ ((([10, 20] : List ℤ).length : ℤ) ≤ (some (5 : ℤ)).getD 0)) ∧
    (∀ e : ℤ, ((([10, 20] : List ℤ).length : ℤ) < e →
      select_by_index ([10, 20] : List ℤ) none (some e) = .ok [10, 20])) :=
  split_by_index_empty_selection_iff ([10, 20] : List ℤ) "A" (by decide) (some 5) none

/-- C3 counterexample: at the one-row table `[10]` the stated range
`k ∈ [0, len(T)]` fails at both ends — with `k = 0` the first call
`select_by_index(T, 0, 0)` raises the missing-argument error (both arguments
are falsy), and with `k = len(T) = 1` the second call
`select_by_index(T, 1, None)` raises the empty-selection error — so the
two selections cannot reconstruct `T` there. -/
theorem select_by_index_zero_boundary_raises :
    select_by_index ([10] : List ℤ) (some 0) (some 0) =
      .error "At least one of start_index or end_index must be specified." ∧
    select_by_index ([10] : List ℤ) (some 1) none = .error (emptySelectionMsg none) := by
  constructor <;> decide

/-- C3 (amended): for every table `T` without id columns and every `k` with
`0 < k < len(T)`, `select_by_index(T, 0, k)` returns the first `k` rows,
`select_by_index(T, k, None)` returns the rest, and their concatenation
reconstructs `T` row-for-row; at the boundary values the calls raise instead
(`k = 0`: missing-argument error, since `start_index = 0` and `end_index = 0`
are both falsy; `k = len(T)` on a non-empty table: empty-selection error). -/
theorem select_by_index_split_reconstructs {α : Type} (xs : List α) (k : ℕ)
    (h0 : 0 < k) (h1 : k < xs.length) :
    select_by_index xs (some 0) (some (k : ℤ)) = .ok (xs.take k) ∧
    select_by_index xs (some (k : ℤ)) none = .ok (xs.drop k) ∧
    xs.take k ++ xs.drop k = xs ∧
    select_by_index xs (some 0) (some 0) =
      .error "At least one of start_index or end_index must be specified." ∧
    select_by_index xs (some (xs.length : ℤ)) none = .error (emptySelectionMsg none) := by
  have hk : ((k : ℤ)) ≠ 0 := by omega
  have hkt : oTruthy (some (k : ℤ)) = true := by
    simp [oTruthy, hk]
  refine ⟨?_, ?_, List.take_append_drop k xs, ?_, ?_⟩
  · unfold select_by_index
    rw [if_neg (by simp [hkt]),
      split_group_by_index_falsy_start xs none (some 0) (some (k : ℤ)) (by decide),
      pySlice_none_some xs (k : ℤ) (by omega)]
    simp
  · unfold select_by_index
    rw [if_neg (by simp [hkt]),
      split_group_by_index_falsy_end xs none (k : ℤ) none hk (by exact_mod_cast h1) rfl,
      pySlice_some_none xs (k : ℤ) (by omega)]
    simp
  · unfold select_by_index
    rw [if_pos (by decide)]
  · have hlen : xs.length ≠ 0 := by omega
    unfold select_by_index
    rw [if_neg (by simp [oTruthy, hlen])]
    exact split_group_by_index_error_branch xs none (xs.length : ℤ) none
      (by exact_mod_cast hlen) le_rfl

/-- C3 witness at `T = [10, 20, 30]`, `k = 1`. -/
theorem select_by_index_split_reconstructs_witness :
    select_by_index ([10, 20, 30] : List ℤ) (some 0) (some ((1 : ℕ) : ℤ)) =
      .ok (([10, 20, 30] : List ℤ).take 1) ∧
    select_by_index ([10, 20, 30] : List ℤ) (some ((1 : ℕ) : ℤ)) none =
      .ok (([10, 20, 30] : List ℤ).drop 1) ∧
    ([10, 20, 30] : List ℤ).take 1 ++ ([10, 20, 30] : List ℤ).drop 1 = [10, 20, 30] ∧
    select_by_index ([10, 20, 30] : List ℤ) (some 0) (some 0) =
      .error "At least one of start_index or end_index must be specified." ∧
    select_by_index ([10, 20, 30] : List ℤ) (some (([10, 20, 30] : List ℤ).length : ℤ)) none =
      .error (emptySelectionMsg none) :=
  select_by_index_split_reconstructs ([10, 20, 30] : List ℤ) 1 (by decide) (by decide)

/-- C9: a negative `start_index` with `-len ≤ start_index < 0` passes the
emptiness check of `select_by_index` (which only fires for
`start_index ≥ length`) and selects rows counted from the end of the table —
with `end_index` omitted, exactly the last `|start_index|` rows; and this
path is reachable from `train_test_split`: whenever `valid_test_offset`
exceeds the computed `train_size` (with non-negative proportions), the group
splitter succeeds while passing the negative start index
`train_size - valid_test_offset` for the valid split. -/
theorem select_by_index_negative_start :
    (∀ (xs : List ℤ) (si : ℤ), -(xs.length : ℤ) ≤ si → si < 0 →
      select_by_index xs (some si) none = .ok (xs.drop ((xs.length : ℤ) + si).toNat) ∧
      (xs.drop ((xs.length : ℤ) + si).toNat).length = si.natAbs) ∧
    (∀ (xs : List ℤ) (train test : ℚ) (off : ℤ), 0 ≤ train → 0 ≤ test →
      pyInt ((xs.length : ℚ) * train) < off →
      exceptOk (split_group_train_test xs none train test off) = true ∧
      pyInt ((xs.length : ℚ) * train) - off < 0) := by
  constructor
  · intro xs si hlo hneg
    have hsi : si ≠ 0 := by omega
    constructor
    · unfold select_by_index
      rw [if_neg (by simp [oTruthy, hsi]),
        split_group_by_index_falsy_end xs none si none hsi (by omega) rfl,
        pySlice_some_none_neg xs si hneg]
    · rw [List.length_drop]
      omega
  · intro xs train test off htr hte hlt
    have hts0 : 0 ≤ pyInt ((xs.length : ℚ) * train) :=
      pyInt_nonneg _ (mul_nonneg (by positivity) htr)
    have htes0 : 0 ≤ pyInt ((xs.length : ℚ) * test) :=
      pyInt_nonneg _ (mul_nonneg (by positivity) hte)
    refine ⟨?_, by omega⟩
    unfold split_group_train_test
    obtain ⟨v1, hv1⟩ := exceptOk_exists (split_group_by_index_isOk xs none (some 0)
      (some (pyInt ((xs.length : ℚ) * train))) (by simp [oTruthy]))
    obtain ⟨v2, hv2⟩ := exceptOk_exists (split_group_by_index_isOk xs none
      (some (pyInt ((xs.length : ℚ) * train) - off))
      (some (pyInt ((xs.length : ℚ) * train) +
        ((xs.length : ℤ) - pyInt ((xs.length : ℚ) * train) - pyInt ((xs.length : ℚ) * test))))
      (by simp only [Option.getD]; omega))
    obtain ⟨v3, hv3⟩ := exceptOk_exists (split_group_by_index_isOk xs none
      (some (pyInt ((xs.length : ℚ) * train) +
        ((xs.length : ℤ) - pyInt ((xs.length : ℚ) * train) - pyInt ((xs.length : ℚ) * test)) - off))
      none (by simp only [Option.getD]; omega))
    simp only [bind, Except.bind, hv1, hv2, hv3]
    rfl

/-- C9 witness: last two rows of `[1,2,3,4,5]` via `start_index = -2`, and a
successful `train_test_split` on `[1,2,3]` with offset 2 exceeding
`train_size = 1`. -/
theorem select_by_index_negative_start_witness :
    (select_by_index ([1, 2, 3, 4, 5] : List ℤ) (some (-2)) none =
        .ok (([1, 2, 3, 4, 5] : List ℤ).drop ((([1, 2, 3, 4, 5] : List ℤ).length : ℤ) + (-2)).toNat) ∧
      (([1, 2, 3, 4, 5] : List ℤ).drop ((([1, 2, 3, 4, 5] : List ℤ).length : ℤ) + (-2)).toNat).length
        = (-2 : ℤ).natAbs) ∧
    (exceptOk (split_group_train_test ([1, 2, 3] : List ℤ) none (1/3) (1/3) 2) = true ∧
      pyInt ((([1, 2, 3] : List ℤ).length : ℚ) * (1/3)) - 2 < 0) :=
  ⟨select_by_index_negative_start.1 [1, 2, 3, 4, 5] (-2) (by decide) (by decide),
   select_by_index_negative_start.2 [1, 2, 3] (1/3) (1/3) 2 (by norm_num) (by norm_num)
     (by norm_num [pyInt])⟩

theorem join_list_foldl_some {α : Type} [DecidableEq α] (rest : List (List α)) :
    ∀ acc : List α,
      rest.foldl
        (fun final alist =>
          match final with
          | none => some alist
          | some f => some (f ++ alist.filter (fun item => decide (item ∉ f))))
        (some acc) = some (joinWithoutRepeatSpec acc rest) := by
  induction rest with
  | nil => intro acc; rfl
  | cons r rest ih =>
      intro acc
      rw [List.foldl_cons]
      exact ih (acc ++ r.filter (fun item => decide (item ∉ acc)))

/-- C8: `join_list_without_repeat` on a non-empty argument tuple returns the
first list verbatim followed by, for each subsequent list in order, exactly
its elements not already present (by equality) in the accumulated result;
and `join_list_without_repeat([1,2,3],[2,3,4],[4,5]) = [1,2,3,4,5]`. -/
theorem join_list_without_repeat_matches_spec :
    (∀ (α : Type) [DecidableEq α] (first : List α) (rest : List (List α)),
      join_list_without_repeat (first :: rest) = some (joinWithoutRepeatSpec first rest)) ∧
    join_list_without_repeat ([[1, 2, 3], [2, 3, 4], [4, 5]] : List (List ℤ)) =
      some [1, 2, 3, 4, 5] := by
  constructor
  · intro α _inst first rest
    unfold join_list_without_repeat
    rw [List.foldl_cons]
    exact join_list_foldl_some rest first
  · decide

/-- C8 witness (the theorem's general part applied at a concrete tuple). -/
theorem join_list_without_repeat_matches_spec_witness :
    join_list_without_repeat ([[1, 2], [2, 3]] : List (List ℤ)) =
      some (joinWithoutRepeatSpec ([1, 2] : List ℤ) [[2, 3]]) :=
  join_list_without_repeat_matches_spec.1 ℤ [1, 2] [[2, 3]]

/-- C6 counterexample: with numeric timestamps (as produced e.g. by
`convert_tsf`, whose synthesized timestamps start at 0), passing
`start_timestamp = 0` and omitting `end_timestamp` raises the configuration
error even though one bound was given, because the source tests Python
truthiness (`not start_timestamp`) rather than omission: the stated
"exactly when both are omitted" is violated. -/
theorem select_by_timestamp_zero_start_raises :
    select_by_timestamp [-1, 3] (some 0) none =
      .error "At least one of start_timestamp or end_timestamp must be specified." := by
  decide

/-- C6 (amended): `select_by_timestamp` fails with the configuration error
exactly when both bounds are falsy (omitted, or equal to a falsy value such
as numeric 0); otherwise it keeps exactly the rows with
`timestamp >= start_timestamp` (when that bound is truthy) and
`timestamp < end_timestamp` (when that bound is truthy) — start inclusive,
end exclusive — the falsy bound being ignored. -/
theorem select_by_timestamp_filter_semantics (xs : List ℤ) (st et : Option ℤ) :
    (select_by_timestamp xs st et =
        .error "At least one of start_timestamp or end_timestamp must be specified." ↔
      oTruthy st = false ∧ oTruthy et = false) ∧
    (∀ s e, st = some s → et = some e → oTruthy st = true → oTruthy et = true →
      select_by_timestamp xs st et = .ok (xs.filter (fun t => decide (s ≤ t ∧ t < e)))) ∧
    (∀ e, oTruthy st = false → et = some e → oTruthy et = true →
      select_by_timestamp xs st et = .ok (xs.filter (fun t => decide (t < e)))) ∧
    (∀ s, st = some s → oTruthy st = true → oTruthy et = false →
      select_by_timestamp xs st et = .ok (xs.filter (fun t => decide (s ≤ t)))) := by
  refine ⟨?_, ?_, ?_, ?_⟩
  · unfold select_by_timestamp
    by_cases hb : ¬ oTruthy st = true ∧ ¬ oTruthy et = true
    · rw [if_pos hb]
      simp only [Bool.not_eq_true] at hb
      exact ⟨fun _ => hb, fun _ => rfl⟩
    · rw [if_neg hb]
      constructor
      · intro h
        split_ifs at h
      · rintro ⟨h1, h2⟩
        exact absurd ⟨by simp [h1], by simp [h2]⟩ hb
  · rintro s e rfl rfl h1 h2
    unfold select_by_timestamp
    rw [if_neg (by simp [h1]), if_neg (by simp [h1]), if_neg (by simp [h2])]
    simp
  · rintro e h1 rfl h2
    unfold select_by_timestamp
    rw [if_neg (by simp [h2]), if_pos (by simp [h1])]
    simp
  · rintro s rfl h1 h2
    unfold select_by_timestamp
    rw [if_neg (by simp [h1]), if_neg (by simp [h1]), if_pos (by simp [h2])]
    simp

/-- C6 witness at `xs = [1, 5, 9]` with both bounds truthy. -/
theorem select_by_timestamp_filter_semantics_witness :
    select_by_timestamp [1, 5, 9] (some 2) (some 9) =
      .ok (([1, 5, 9] : List ℤ).filter (fun t => decide ((2 : ℤ) ≤ t ∧ t < 9))) :=
  (select_by_timestamp_filter_semantics [1, 5, 9] (some 2) (some 9)).2.1 2 9 rfl rfl
    (by decide) (by decide)

theorem split_group_by_index_ok_or_empty (xs : List α) (name : Option String)
    (si ei : Option ℤ) :
    (∃ v, split_group_by_index xs name si ei = .ok v) ∨
      split_group_by_index xs name si ei = .error (emptySelectionMsg name) := by
  unfold split_group_by_index
  split_ifs <;> first
    | exact Or.inr rfl
    | exact Or.inl ⟨_, rfl⟩

/-- C5 counterexample: with `start_offset = 0` and `start_fraction = 1 ≥ 0`
on the one-row table `[42]`, `select_by_relative_fraction` does raise — the
computed `start_index = int(1*1.0) - 0 = 1` equals the group length, so the
empty-selection error fires — refuting the stated "never raises when
start_offset = 0 and start_fraction >= 0". -/
theorem select_by_relative_fraction_full_fraction_raises :
    select_by_relative_fraction ([42] : List ℤ) (some 1) 0 none =
      .error (emptySelectionMsg none) := by
  have h1 : pyInt ((([42] : List ℤ).length : ℚ) * 1) - 0 = 1 := by
    norm_num [pyInt]
  unfold select_by_relative_fraction
  rw [if_neg (by simp [qTruthy]), if_neg (by omega)]
  unfold split_group_by_fraction
  simp only [Option.map_none, h1]
  rw [if_neg (by omega)]
  exact split_group_by_index_error_branch _ none 1 none (by omega) (by simp)

/-- C5 (amended): given at least one truthy fraction, a negative
`start_offset` fails with the validation error; whenever the computed
`start_index = int(length*start_fraction) - start_offset` is negative, the
out-of-range error is raised, and with grouping active its message names the
group; and with `start_offset = 0` and `start_fraction ≥ 0` the negative
`start_index` error can never be raised (though other errors — the
missing-fraction configuration error or the empty-selection error, as in the
counterexample — remain possible). -/
theorem select_by_relative_fraction_error_conditions {α : Type} (xs : List α)
    (sf ef : Option ℚ) (so : ℤ) :
    ((qTruthy sf = true ∨ qTruthy ef = true) → so < 0 →
      select_by_relative_fraction xs sf so ef =
        .error "The value of start_offset should ne non-negative.") ∧
    (∀ s : ℚ, sf = some s → 0 ≤ so → (qTruthy sf = true ∨ qTruthy ef = true) →
      pyInt ((xs.length : ℚ) * s) - so < 0 →
      select_by_relative_fraction xs sf so ef = .error (negStartMsg none)) ∧
    (∀ (name : String) (s : ℚ), name ≠ "" → sf = some s →
      pyInt ((xs.length : ℚ) * s) - so < 0 →
      split_group_by_fraction xs (some name) sf so ef = .error (negStartMsg (some name)) ∧
      negStartMsg (some name) =
        "Computed starting_index for id=" ++ name ++
          " is negative, please check individual time series lengths, start_fraction, and start_offset.") ∧
    (∀ s : ℚ, sf = some s → so = 0 → 0 ≤ s →
      select_by_relative_fraction xs sf so ef ≠ .error (negStartMsg none)) := by
  refine ⟨?_, ?_, ?_, ?_⟩
  · intro hdisj hso
    unfold select_by_relative_fraction
    rw [if_neg (by rcases hdisj with h | h <;> simp [h]), if_pos hso]
  · rintro s rfl hso hdisj hneg
    unfold select_by_relative_fraction
    rw [if_neg (by rcases hdisj with h | h <;> simp [h]), if_neg (by omega)]
    simp only [split_group_by_fraction]
    rw [if_pos hneg]
  · rintro name s hname rfl hneg
    constructor
    · simp only [split_group_by_fraction]
      rw [if_pos hneg]
    · simp only [negStartMsg, sTruthy, Option.getD]
      rw [if_pos (by simpa using hname)]
  · rintro s rfl rfl hs
    have hnn : 0 ≤ pyInt ((xs.length : ℚ) * s) - 0 :=
      by simpa using pyInt_nonneg _ (mul_nonneg (by positivity) hs)
    unfold select_by_relative_fraction
    by_cases hb : ¬ qTruthy (some s) = true ∧ ¬ qTruthy ef = true
    · rw [if_pos hb]
      intro h
      exact absurd (Except.error.inj h) (by decide)
    · rw [if_neg hb, if_neg (by omega)]
      simp only [split_group_by_fraction]
      rw [if_neg (by omega)]
      rcases split_group_by_index_ok_or_empty xs none
          (some (pyInt ((xs.length : ℚ) * s) - 0))
          (ef.map fun f => pyInt ((xs.length : ℚ) * f)) with ⟨v, hv⟩ | hv
      · rw [hv]
        intro h
        exact Except.noConfusion h
      · rw [hv]
        intro h
        exact absurd (Except.error.inj h) (by decide)

/-- C5 witness: `[10, 20]`, `start_fraction = 1/2`, showing the negative
offset validation error, the negative start-index error (ungrouped and
named-group forms), and the never-negative-error conclusion at offset 0. -/
theorem select_by_relative_fraction_error_conditions_witness :
    select_by_relative_fraction ([10, 20] : List ℤ) (some (1/2)) (-1) none =
      .error "The value of start_offset should ne non-negative." ∧
    select_by_relative_fraction ([10, 20] : List ℤ) (some (1/2)) 5 none =
      .error (negStartMsg none) ∧
    split_group_by_fraction ([10, 20] : List ℤ) (some "G") (some (1/2)) 5 none =
      .error (negStartMsg (some "G")) ∧
    select_by_relative_fraction ([10, 20] : List ℤ) (some (1/2)) 0 none ≠
      .error (negStartMsg none) :=
  ⟨(select_by_relative_fraction_error_conditions [10, 20] (some (1/2)) none (-1)).1
      (Or.inl (by norm_num [qTruthy])) (by norm_num),
   (select_by_relative_fraction_error_conditions [10, 20] (some (1/2)) none 5).2.1
      (1/2) rfl (by norm_num) (Or.inl (by norm_num [qTruthy])) (by norm_num [pyInt]),
   ((select_by_relative_fraction_error_conditions [10, 20] (some (1/2)) none 5).2.2.1
      "G" (1/2) (by decide) rfl (by norm_num [pyInt])).1,
   (select_by_relative_fraction_error_conditions [10, 20] (some (1/2)) none 0).2.2.2
      (1/2) rfl rfl (by norm_num)⟩

/-- C1 counterexample: for the all-integer index configuration
`{train: [0, 100], valid: [100, 150], test: [150, 200]}` with context
length 5, the train split's first boundary equals 0 — stated to be
fraction-mode — yet the source condition
`(b0 < 1 and b0 != 0) or (b1 < 1)` expressly excludes a zero first boundary,
so the resolver returns index-based parameters for all three splits
(train `start_index = 0`, and `start_index` shifted by the context length
for test and valid). -/
theorem get_split_params_zero_boundary_is_index_mode :
    (0 : ℚ) = 0 ∧
    get_split_params (.threeWay ⟨(0, 100), (100, 150), (150, 200)⟩) (some 5) =
      .explicitMode (.index 0 100) (.index 145 200) (.index 95 150) := by
  refine ⟨rfl, ?_⟩
  simp only [get_split_params, resolveExplicitSplit, ctxEff, oTruthy]
  norm_num

/-- C1 (amended): in the explicit three-way mode, a split resolves to
fraction-based parameters iff (first boundary < 1 and ≠ 0) or second
boundary < 1 — a zero first boundary does NOT by itself select fraction
mode; in fraction mode the parameters are the two boundaries with
`start_offset` = the context length for truthy context on non-train splits
and 0 for train, otherwise index mode uses `start_index` = first boundary
minus that offset and `end_index` = second boundary; and on the example
configuration `{train: [0, 0.7], valid: [0.7, 0.9], test: [0.9, 1.0]}` with
context length 5, all three splits resolve to fraction mode with offsets
0/5/5 (train/test/valid). -/
theorem get_split_params_mode_selection :
    (∀ (b : ℚ × ℚ) (isTrain : Bool) (ctx : Option ℤ),
      ((resolveExplicitSplit b isTrain ctx).isFractionMode = true ↔
        ((b.1 < 1 ∧ b.1 ≠ 0) ∨ b.2 < 1)) ∧
      (((b.1 < 1 ∧ b.1 ≠ 0) ∨ b.2 < 1) →
        resolveExplicitSplit b isTrain ctx =
          .fraction b.1 b.2 (if isTrain then 0 else ctxEff ctx)) ∧
      (¬ ((b.1 < 1 ∧ b.1 ≠ 0) ∨ b.2 < 1) →
        resolveExplicitSplit b isTrain ctx =
          .index (b.1 - (((if isTrain then 0 else ctxEff ctx) : ℤ) : ℚ)) b.2)) ∧
    get_split_params (.threeWay ⟨(0, 7/10), (7/10, 9/10), (9/10, 1)⟩) (some 5) =
      .explicitMode (.fraction 0 (7/10) 0) (.fraction (9/10) 1 5) (.fraction (7/10) (9/10) 5) := by
  constructor
  · intro b isTrain ctx
    refine ⟨?_, ?_, ?_⟩
    · unfold resolveExplicitSplit
      by_cases hc : (b.1 < 1 ∧ b.1 ≠ 0) ∨ b.2 < 1
      · rw [if_pos hc]
        simpa [SplitParams.isFractionMode] using hc
      · rw [if_neg hc]
        simpa [SplitParams.isFractionMode] using hc
    · intro hc
      unfold resolveExplicitSplit
      rw [if_pos hc]
    · intro hc
      unfold resolveExplicitSplit
      rw [if_neg hc]
  · simp only [get_split_params, resolveExplicitSplit, ctxEff, oTruthy]
    norm_num

/-- C1 witness: the valid split of the example configuration is
fraction-mode with its boundaries as fractions and offset 5. -/
theorem get_split_params_mode_selection_witness :
    (resolveExplicitSplit ((7 : ℚ)/10, (9 : ℚ)/10) false (some 5)).isFractionMode = true ∧
    resolveExplicitSplit ((7 : ℚ)/10, (9 : ℚ)/10) false (some 5) =
      .fraction ((7 : ℚ)/10) ((9 : ℚ)/10) (if false then 0 else ctxEff (some 5)) :=
  ⟨(get_split_params_mode_selection.1 ((7 : ℚ)/10, (9 : ℚ)/10) false (some 5)).1.mpr
      (Or.inr (by norm_num)),
   (get_split_params_mode_selection.1 ((7 : ℚ)/10, (9 : ℚ)/10) false (some 5)).2.1
      (Or.inr (by norm_num))⟩

/-- C2 counterexample: `test = 0` and `valid_test_offset = 0` are a valid
proportion and offset, and the stated behavior is test rows `[10, 10)` (empty)
on a 10-row group with `train = 0.7` — but the test sub-call receives
`start_index = 10 = length`, which is truthy, so `train_test_split` raises
the empty-selection error instead of returning. -/
theorem train_test_split_zero_test_raises :
    train_test_split ([0, 1, 2, 3, 4, 5, 6, 7, 8, 9] : List ℤ) (7/10) 0 0 =
      .error (emptySelectionMsg none) := by
  have h1 : pyInt ((([0, 1, 2, 3, 4, 5, 6, 7, 8, 9] : List ℤ).length : ℚ) * (7/10)) = 7 := by
    norm_num [pyInt]
  have h2 : pyInt ((([0, 1, 2, 3, 4, 5, 6, 7, 8, 9] : List ℤ).length : ℚ) * 0) = 0 := by
    norm_num [pyInt]
  unfold train_test_split split_group_train_test
  simp only [h1, h2]
  decide

/-- C2 (amended): per group, `train_size = floor(l*train)` and
`test_size = floor(l*test)` (the `int()` truncation coincides with floor for
non-negative proportions), `valid_size = l - train_size - test_size`, and
`train_test_split` returns train rows `[0, train_size)`, valid rows
`[train_size - offset, train_size + valid_size)` and test rows
`[train_size + valid_size - offset, l)` — provided `offset ≤ train_size`
and, on a non-empty group with `offset = 0`, `train_size < l` and
`test_size > 0` (otherwise the empty-selection check raises, as in the
counterexample); at `offset = 0` the three parts concatenate back to the
whole group (no overlap, no gap); in particular a 100-row group with
`train = 0.7`, `test = 0.2`, offset 0 yields rows `[0,70)`, `[70,80)`,
`[80,100)`. -/
theorem train_test_split_sizes_and_ranges :
    (∀ (xs : List ℤ) (train test : ℚ) (off ts tes vs : ℤ),
      ts = pyInt ((xs.length : ℚ) * train) →
      tes = pyInt ((xs.length : ℚ) * test) →
      vs = (xs.length : ℤ) - ts - tes →
      0 ≤ train → 0 ≤ test → train + test ≤ 1 →
      0 ≤ off → off ≤ ts →
      (xs.length ≠ 0 → off = 0 → ts < (xs.length : ℤ) ∧ 0 < tes) →
      ts = ⌊(xs.length : ℚ) * train⌋ ∧
      tes = ⌊(xs.length : ℚ) * test⌋ ∧
      train_test_split xs train test off =
        .ok (xs.take ts.toNat,
             (xs.drop (ts - off).toNat).take ((ts + vs).toNat - (ts - off).toNat),
             xs.drop (ts + vs - off).toNat) ∧
      (off = 0 →
        xs.take ts.toNat
          ++ (xs.drop (ts - off).toNat).take ((ts + vs).toNat - (ts - off).toNat)
          ++ xs.drop (ts + vs - off).toNat = xs)) ∧
    (∀ xs : List ℤ, xs.length = 100 →
      train_test_split xs (7/10) (2/10) 0 =
        .ok (xs.take 70, (xs.drop 70).take 10, xs.drop 80)) := by
  have G : ∀ (xs : List ℤ) (train test : ℚ) (off ts tes vs : ℤ),
      ts = pyInt ((xs.length : ℚ) * train) →
      tes = pyInt ((xs.length : ℚ) * test) →
      vs = (xs.length : ℤ) - ts - tes →
      0 ≤ train → 0 ≤ test → train + test ≤ 1 →
      0 ≤ off → off ≤ ts →
      (xs.length ≠ 0 → off = 0 → ts < (xs.length : ℤ) ∧ 0 < tes) →
      ts = ⌊(xs.length : ℚ) * train⌋ ∧
      tes = ⌊(xs.length : ℚ) * test⌋ ∧
      train_test_split xs train test off =
        .ok (xs.take ts.toNat,
             (xs.drop (ts - off).toNat).take ((ts + vs).toNat - (ts - off).toNat),
             xs.drop (ts + vs - off).toNat) ∧
      (off = 0 →
        xs.take ts.toNat
          ++ (xs.drop (ts - off).toNat).take ((ts + vs).toNat - (ts - off).toNat)
          ++ xs.drop (ts + vs - off).toNat = xs) := by
    intro xs train test off ts tes vs hts htes hvs htr hte hsum hoff hoffts hedge
    have hts0 : 0 ≤ ts := hts ▸ pyInt_nonneg _ (mul_nonneg (by positivity) htr)
    have htes0 : 0 ≤ tes := htes ▸ pyInt_nonneg _ (mul_nonneg (by positivity) hte)
    have htr1 : train ≤ 1 := by linarith
    have htsl : ts ≤ (xs.length : ℤ) := hts ▸ pyInt_natMul_le _ _ htr htr1
    have hsuml : ts + tes ≤ (xs.length : ℤ) := by
      rw [hts, htes]; exact pyInt_natMul_add_le _ _ _ htr hte hsum
    have hvs0 : 0 ≤ vs := by omega
    have h_train : split_group_by_index xs none (some 0) (some ts) =
        .ok (xs.take ts.toNat) := by
      rw [split_group_by_index_falsy_start xs none (some 0) (some ts) (by decide),
        pySlice_none_some xs ts hts0]
    have h_valid : split_group_by_index xs none (some (ts - off)) (some (ts + vs)) =
        .ok ((xs.drop (ts - off).toNat).take ((ts + vs).toNat - (ts - off).toNat)) := by
      by_cases hz : ts - off = 0
      · rw [split_group_by_index_falsy_start xs none (some (ts - off)) (some (ts + vs))
          (by simp [oTruthy, hz]),
          pySlice_none_some xs (ts + vs) (by omega), hz]
        simp
      · have hsil : ts - off < (xs.length : ℤ) := by
          rcases eq_or_lt_of_le hoff with heq | hlt0
          · have hlne : xs.length ≠ 0 := by
              intro h0
              rw [h0] at htsl
              omega
            have := (hedge hlne heq.symm).1
            omega
          · omega
        rw [split_group_by_index_both xs none (ts - off) (ts + vs) hz hsil (by omega),
          pySlice_some_some xs (ts - off) (ts + vs) (by omega) (by omega)]
    have h_test : split_group_by_index xs none (some (ts + vs - off)) none =
        .ok (xs.drop (ts + vs - off).toNat) := by
      by_cases hz2 : ts + vs - off = 0
      · rw [split_group_by_index_falsy_start xs none (some (ts + vs - off)) none
          (by simp [oTruthy, hz2]),
          pySlice_none_none, hz2]
        simp
      · have hsi0 : 0 ≤ ts + vs - off := by omega
        have hsil : ts + vs - off < (xs.length : ℤ) := by
          rcases eq_or_lt_of_le hoff with heq | hlt0
          · have hlne : xs.length ≠ 0 := by
              intro h0
              rw [h0] at htsl hsuml
              omega
            have := (hedge hlne heq.symm).2
            omega
          · omega
        rw [split_group_by_index_falsy_end xs none (ts + vs - off) none hz2 hsil rfl,
          pySlice_some_none xs (ts + vs - off) hsi0]
    refine ⟨by rw [hts, pyInt_of_nonneg _ (mul_nonneg (by positivity) htr)],
            by rw [htes, pyInt_of_nonneg _ (mul_nonneg (by positivity) hte)], ?_, ?_⟩
    · unfold train_test_split split_group_train_test
      simp only [← hts, ← htes, ← hvs, bind, Except.bind, h_train, h_valid, h_test]
      rfl
    · intro h0
      subst h0
      simp only [sub_zero]
      have h1 : xs.take ts.toNat ++ (xs.drop ts.toNat).take ((ts + vs).toNat - ts.toNat)
          = xs.take (ts + vs).toNat := by
        rw [← List.take_add]
        congr 1
        omega
      rw [h1, List.take_append_drop]
  refine ⟨G, ?_⟩
  intro xs h100
  have H := (G xs (7/10) (2/10) 0 70 20 10
    (by rw [h100]; norm_num [pyInt])
    (by rw [h100]; norm_num [pyInt])
    (by rw [h100]; norm_num)
    (by norm_num) (by norm_num) (by norm_num)
    (by norm_num) (by norm_num)
    (fun _ _ => ⟨by rw [h100]; norm_num, by norm_num⟩)).2.2.1
  norm_num at H ⊢
  exact H

/-- C2 witness: the general part applied at the 10-row group `0..9` with
`train = 0.7`, `test = 0.2`, offset 0: sizes 7/1/2 and rows `[0,7)`,
`[7,8)`, `[8,10)`. -/
theorem train_test_split_sizes_and_ranges_witness :
    (7 : ℤ) = ⌊((([0, 1, 2, 3, 4, 5, 6, 7, 8, 9] : List ℤ).length : ℚ) * (7/10))⌋ ∧
    (2 : ℤ) = ⌊((([0, 1, 2, 3, 4, 5, 6, 7, 8, 9] : List ℤ).length : ℚ) * (2/10))⌋ ∧
    train_test_split ([0, 1, 2, 3, 4, 5, 6, 7, 8, 9] : List ℤ) (7/10) (2/10) 0 =
      .ok (([0, 1, 2, 3, 4, 5, 6, 7, 8, 9] : List ℤ).take (7 : ℤ).toNat,
           (([0, 1, 2, 3, 4, 5, 6, 7, 8, 9] : List ℤ).drop ((7 : ℤ) - 0).toNat).take
             (((7 : ℤ) + 1).toNat - ((7 : ℤ) - 0).toNat),
           ([0, 1, 2, 3, 4, 5, 6, 7, 8, 9] : List ℤ).drop ((7 : ℤ) + 1 - 0).toNat) ∧
    ((0 : ℤ) = 0 →
      ([0, 1, 2, 3, 4, 5, 6, 7, 8, 9] : List ℤ).take (7 : ℤ).toNat
        ++ (([0, 1, 2, 3, 4, 5, 6, 7, 8, 9] : List ℤ).drop ((7 : ℤ) - 0).toNat).take
             (((7 : ℤ) + 1).toNat - ((7 : ℤ) - 0).toNat)
        ++ ([0, 1, 2, 3, 4, 5, 6, 7, 8, 9] : List ℤ).drop ((7 : ℤ) + 1 - 0).toNat
        = [0, 1, 2, 3, 4, 5, 6, 7, 8, 9] : Prop) :=
  train_test_split_sizes_and_ranges.1 [0, 1, 2, 3, 4, 5, 6, 7, 8, 9] (7/10) (2/10) 0 7 2 1
    (by norm_num [pyInt]) (by norm_num [pyInt]) (by norm_num)
    (by norm_num) (by norm_num) (by norm_num) (by norm_num) (by norm_num)
    (fun _ _ => ⟨by norm_num, by norm_num⟩)

/-! Helper lemmas for the `.tsf` reader. -/

theorem foldlM_except_cons {σ β : Type} (f : σ → β → Except String σ) (s : σ)
    (a : β) (l : List β) :
    List.foldlM f s (a :: l) = f s a >>= fun s' => List.foldlM f s' l := rfl

theorem except_bind_ok {β γ : Type} (v : β) (f : β → Except String γ) :
    ((Except.ok v : Except String β) >>= f) = f v := rfl

theorem except_bind_error {β γ : Type} (e : String) (f : β → Except String γ) :
    ((Except.error e : Except String β) >>= f) = .error e := rfl

theorem startsWithChars_hash_not_at (cs : List Char)
    (h : startsWithChars ['#'] cs = true) : startsWithChars ['@'] cs = false := by
  cases cs with
  | nil => simp [startsWithChars] at h
  | cons c cs =>
      simp only [startsWithChars, Bool.and_eq_true, beq_iff_eq] at h ⊢
      rcases h with ⟨h1, _⟩
      subst h1
      decide

theorem pyStartsWith_hash_not_at (s : String) (h : pyStartsWith s "#" = true) :
    pyStartsWith s "@" = false := by
  have hh : startsWithChars ['#'] s.data = true := h
  exact startsWithChars_hash_not_at s.data hh

theorem tsfProcessLine_skip (st : TsfState) (l : String)
    (h : pyStrip l = "" ∨ (pyStrip l ≠ "" ∧ pyStartsWith (pyStrip l) "#" = true)) :
    tsfProcessLine st l = .ok st ∨
    tsfProcessLine st l = .ok { st with line_count := st.line_count + 1 } := by
  rcases h with h | ⟨hne, hh⟩
  · left
    simp only [tsfProcessLine]
    rw [h, if_pos rfl]
  · right
    have hat : pyStartsWith (pyStrip l) "@" = false := pyStartsWith_hash_not_at _ hh
    simp only [tsfProcessLine]
    rw [if_neg hne, if_neg (by simp [hat]), if_neg (by simp [hh])]
    rfl

theorem foldlM_skip_lines (rest : List String) : ∀ st : TsfState,
    (∀ l ∈ rest, pyStrip l = "" ∨ (pyStrip l ≠ "" ∧ pyStartsWith (pyStrip l) "#" = true)) →
    ∃ st', List.foldlM tsfProcessLine st rest = .ok st' ∧
      st'.col_names = st.col_names ∧ st'.found_data_section = st.found_data_section ∧
      st.line_count ≤ st'.line_count := by
  induction rest with
  | nil => exact fun st _ => ⟨st, rfl, rfl, rfl, le_refl _⟩
  | cons a rest ih =>
      intro st hall
      have hrest : ∀ l ∈ rest, pyStrip l = "" ∨ (pyStrip l ≠ "" ∧ pyStartsWith (pyStrip l) "#" = true) :=
        fun l hl => hall l (by simp [hl])
      rcases tsfProcessLine_skip st a (hall a (by simp)) with h | h
      · obtain ⟨st', h1, h2, h3, h4⟩ := ih st hrest
        exact ⟨st', by rw [foldlM_except_cons, h, except_bind_ok, h1], h2, h3, h4⟩
      · obtain ⟨st', h1, h2, h3, h4⟩ := ih { st with line_count := st.line_count + 1 } hrest
        exact ⟨st', by rw [foldlM_except_cons, h, except_bind_ok, h1],
          h2, h3, by simp at h4; omega⟩

theorem tsfProcessLine_missing_tag (st : TsfState) (line : String)
    (hstrip : pyStrip line = line) (hne : line ≠ "")
    (hat : pyStartsWith line "@" = false) (hhash : pyStartsWith line "#" = false)
    (hcol : st.col_names.length ≠ 0) (htag : st.found_data_tag = false) :
    tsfProcessLine st line = .error "Missing @data tag." := by
  simp only [tsfProcessLine]
  rw [hstrip, if_neg hne, if_neg (by simp [hat]), if_pos (by simp [hhash])]
  simp only [tsfDataLine]
  rw [if_neg hcol, if_pos (by simp [htag])]
  rfl

theorem mapM_all_question (qs : List String) (h : ∀ q ∈ qs, q = "?") :
    qs.mapM tsfParseVal = .ok (List.replicate qs.length TsfVal.missing) := by
  induction qs with
  | nil => rfl
  | cons q qs ih =>
      have hq : q = "?" := h q (by simp)
      subst hq
      have htail := ih (fun l hl => h l (by simp [hl]))
      rw [List.mapM_cons, show tsfParseVal "?" = .ok .missing from rfl, except_bind_ok,
        htail, except_bind_ok, List.length_cons, List.replicate_succ]
      rfl

theorem count_missing_replicate (n : ℕ) :
    (List.replicate n TsfVal.missing).count TsfVal.missing = n := by
  induction n with
  | zero => rfl
  | succ n ih =>
      rw [List.replicate_succ, List.count_cons, ih]
      simp [show (TsfVal.missing == TsfVal.missing) = true from rfl]

theorem tsfDataLine_all_missing (st : TsfState) (line name vals : String)
    (qs : List String) (hcol : st.col_names.length = 1) (htag : st.found_data_tag = true)
    (hsplit : pySplit line ':' = [name, vals]) (hqs : pySplit vals ',' = qs)
    (hne : qs ≠ []) (hall : ∀ q ∈ qs, q = "?") :
    tsfDataLine st line =
      .error "All series values are missing. A given series should contains a set of comma separated numeric values. At least one numeric value should be there in a series." := by
  have hq0 : qs.length ≠ 0 := by simpa [List.length_eq_zero] using hne
  simp only [tsfDataLine]
  rw [if_neg (by omega), if_neg (by simp [htag]), hsplit]
  by_cases hs : ¬ st.started_reading_data_section = true
  · rw [if_pos hs,
      if_neg (show ¬ (([name, vals] : List String).length ≠ st.col_names.length + 1) by
        simp [hcol]),
      show ([name, vals] : List String).getD (([name, vals] : List String).length - 1) ""
        = vals from rfl,
      hqs, if_neg hq0, mapM_all_question qs hall, except_bind_ok,
      if_pos (by rw [count_missing_replicate, List.length_replicate])]
  · rw [if_neg hs,
      if_neg (show ¬ (([name, vals] : List String).length ≠ st.col_names.length + 1) by
        simp [hcol]),
      show ([name, vals] : List String).getD (([name, vals] : List String).length - 1) ""
        = vals from rfl,
      hqs, if_neg hq0, mapM_all_question qs hall, except_bind_ok,
      if_pos (by rw [count_missing_replicate, List.length_replicate])]

/-- C7: the legacy reader's three error conditions. (a) A file with a valid
attribute line whose next non-blank, non-comment, non-`@` line is a data row
fails with "Missing @data tag." regardless of what follows; (b) a file with
a valid header (attribute line and `@data` tag) followed only by blank or
comment lines fails with the missing-series-information error; (c) a data
row whose value array consists entirely of `?` tokens fails with the
degenerate-series (all-values-missing) error. The side hypotheses only state
the tokenization of the quantified lines. -/
theorem convert_tsf_error_conditions :
    (∀ (dataLine : String) (rest : List String),
      pyStrip dataLine = dataLine → dataLine ≠ "" →
      pyStartsWith dataLine "@" = false → pyStartsWith dataLine "#" = false →
      convert_tsf_to_dataframe ("@attribute series_name string" :: dataLine :: rest) =
        .error "Missing @data tag.") ∧
    (∀ rest : List String,
      (∀ l ∈ rest, pyStrip l = "" ∨ (pyStrip l ≠ "" ∧ pyStartsWith (pyStrip l) "#" = true)) →
      convert_tsf_to_dataframe ("@attribute series_name string" :: "@data" :: rest) =
        .error "Missing series information under data section.") ∧
    (∀ (dataLine name vals : String) (qs : List String),
      pyStrip dataLine = dataLine → dataLine ≠ "" →
      pyStartsWith dataLine "@" = false → pyStartsWith dataLine "#" = false →
      pySplit dataLine ':' = [name, vals] → pySplit vals ',' = qs → qs ≠ [] →
      (∀ q ∈ qs, q = "?") →
      convert_tsf_to_dataframe ["@attribute series_name string", "@data", dataLine] =
        .error "All series values are missing. A given series should contains a set of comma separated numeric values. At least one numeric value should be there in a series.") := by
  have h_attr : tsfProcessLine {} "@attribute series_name string" =
      .ok { col_names := ["series_name"], col_types := ["string"], line_count := 1 } := by
    decide
  have h_data : tsfProcessLine
        { col_names := ["series_name"], col_types := ["string"], line_count := 1 } "@data" =
      .ok { col_names := ["series_name"], col_types := ["string"],
            found_data_tag := true, line_count := 2 } := by
    decide
  refine ⟨?_, ?_, ?_⟩
  · intro dataLine rest hstrip hne hat hhash
    have h_d : tsfProcessLine
          { col_names := ["series_name"], col_types := ["string"], line_count := 1 } dataLine =
        .error "Missing @data tag." :=
      tsfProcessLine_missing_tag _ dataLine hstrip hne hat hhash (by decide) rfl
    unfold convert_tsf_to_dataframe
    rw [foldlM_except_cons, h_attr, except_bind_ok, foldlM_except_cons, h_d,
      except_bind_error, except_bind_error]
  · intro rest hall
    obtain ⟨st', h1, h2, h3, h4⟩ := foldlM_skip_lines rest
      { col_names := ["series_name"], col_types := ["string"],
        found_data_tag := true, line_count := 2 } hall
    unfold convert_tsf_to_dataframe
    rw [foldlM_except_cons, h_attr, except_bind_ok, foldlM_except_cons, h_data,
      except_bind_ok, h1, except_bind_ok]
    have h4' : 2 ≤ st'.line_count := h4
    rw [if_neg (by omega), if_neg (by simp [h2]), if_pos (by simp [h3])]
  · intro dataLine name vals qs hstrip hne hat hhash hsplit hqs hqne hall
    have h_d : tsfProcessLine
          { col_names := ["series_name"], col_types := ["string"],
            found_data_tag := true, line_count := 2 } dataLine =
        .error "All series values are missing. A given series should contains a set of comma separated numeric values. At least one numeric value should be there in a series." := by
      simp only [tsfProcessLine]
      rw [hstrip, if_neg hne, if_neg (by simp [hat]), if_pos (by simp [hhash]),
        tsfDataLine_all_missing _ dataLine name vals qs (by decide) rfl hsplit hqs hqne hall,
        except_bind_error]
    unfold convert_tsf_to_dataframe
    rw [foldlM_except_cons, h_attr, except_bind_ok, foldlM_except_cons, h_data,
      except_bind_ok, foldlM_except_cons, h_d, except_bind_error, except_bind_error]

/-- C7 witness: the three error conditions on minimal concrete files. -/
theorem convert_tsf_error_conditions_witness :
    convert_tsf_to_dataframe ["@attribute series_name string", "T1:1,2,3"] =
      .error "Missing @data tag." ∧
    convert_tsf_to_dataframe ["@attribute series_name string", "@data", "# note", " "] =
      .error "Missing series information under data section." ∧
    convert_tsf_to_dataframe ["@attribute series_name string", "@data", "T1:?,?"] =
      .error "All series values are missing. A given series should contains a set of comma separated numeric values. At least one numeric value should be there in a series." :=
  ⟨convert_tsf_error_conditions.1 "T1:1,2,3" [] (by decide) (by decide) (by decide) (by decide),
   convert_tsf_error_conditions.2.1 ["# note", " "] (by decide),
   convert_tsf_error_conditions.2.2 "T1:?,?" "T1" "?,?" ["?", "?"] (by decide) (by decide)
     (by decide) (by decide) (by decide) (by decide) (by decide) (by decide)⟩

/-!
Concrete evaluations of the embedding, mirroring the behavior of the Python
source on small inputs.
-/

example : convert_tsf_to_dataframe ["@attribute series_name string", "T1:1,2,3"]
    = .error "Missing @data tag." := by decide
example : convert_tsf_to_dataframe ["@attribute series_name string", "@data"]
    = .error "Missing series information under data section." := by decide
example : convert_tsf_to_dataframe ["@attribute series_name string", "@data", "T1:?,?,?"]
    = .error "All series values are missing. A given series should contains a set of comma separated numeric values. At least one numeric value should be there in a series." := by
  decide
example : convert_tsf_to_dataframe
      ["# c", "@frequency daily", "@attribute series_name string", "@data", "T1:1.5,?,2"]
    = .ok { col_names := ["series_name"], attr_rows := [[.strVal "T1"]],
            series := [[.num "1.5", .missing, .num "2"]],
            frequency := some "daily", forecast_horizon := none,
            contain_missing_values := none, contain_equal_length := none } := by decide
example : convert_tsf_to_dataframe [] = .error "Empty file." := by decide
example : convert_tsf_to_dataframe ["@data"]
    = .error "Missing attribute section. Attribute section must come before data." := by decide
example : select_by_index [10, 20, 30] (some 1) none = .ok [20, 30] := by decide
example : select_by_index ([10] : List ℤ) (some 0) (some 0)
    = .error "At least one of start_index or end_index must be specified." := by decide
example : select_by_index [10, 20, 30] (some (-2)) none = .ok [20, 30] := by decide
example : split_group_by_index [10, 20] (some "g") (some 5) none
    = .error "Selection would result in an empty time series, please check start_index and time series length (id = g)" := by
  decide
example : select_by_timestamp [1, 5, 9] (some 5) none = .ok [5, 9] := by decide
example : select_by_fixed_fraction ([7] : List ℤ) 0 "last" 0
    = .error "Selection would result in an empty time series, please check start_index and time series length" := by
  norm_num [select_by_fixed_fraction, split_group_by_fixed_fraction, split_group_by_index,
    pyInt, emptySelectionMsg, sTruthy, oTruthy]
  exact fun h => absurd h (by decide)
example : select_by_fixed_fraction ([7] : List ℤ) 0 "first" 0 = .ok [] := by
  norm_num [select_by_fixed_fraction, split_group_by_fixed_fraction, split_group_by_index,
    pyInt, pySlice, pyNorm, oTruthy]
